import Mathlib

/-!
# Verification of the natural-selection Proportions ledger, screen-view state machine,
# environment model-view transform, and population generation scroller

This development shallowly embeds the parts of the `natural-selection` repository that the
claims concern:

* `ProportionsModel` (the Proportions-graph sub-model and its ledger of per-generation
  start/end counts), together with the axon `Property`/`Multilink` listener semantics that
  the constructor wires up.  Stateful code is modelled by explicit state passing: every
  operation is a function from `ProportionsModelState` to `ProportionsModelState` (or to
  `Except LedgerError ProportionsModelState` for the fallible ledger-recording calls), and
  listener cascades triggered by property assignment are inlined at each assignment site in
  the order the listeners are registered in the source.
* `ProportionsCounts` (the immutable per-generation record).
* The `NaturalSelectionScreenView` simulation-mode wiring (terminal events, `endSimulation`,
  and the link that enables/disables controls).
* `EnvironmentModelViewTransform`, over exact rational arithmetic.
* `PopulationGenerationScroller`'s back/forward callbacks.
-/

/--
Modelled from the spec: `BunnyCounts.js` is not under `src/`; the spec describes
`BunnyCounts` as an immutable snapshot holding a total count and, per gene, the count of
each allele's phenotypic expression across a population.  The sim has three genes
(fur, ears, teeth), each with two phenotypes.  The ledger code under `src/` treats
`BunnyCounts` values opaquely (it only stores and copies them), so no claim depends on
more than this shape.
-/
structure BunnyCounts where
  totalCount : Nat
  whiteFurCount : Nat
  brownFurCount : Nat
  straightEarsCount : Nat
  floppyEarsCount : Nat
  shortTeethCount : Nat
  longTeethCount : Nat
deriving DecidableEq

/-- `BunnyCounts.withZero` — the all-zero counts, the reset value of the
`startCountsProperty` and `endCountsProperty` in `ProportionsModel`. -/
def BunnyCounts.withZero : BunnyCounts :=
  ⟨0, 0, 0, 0, 0, 0, 0⟩

/-- `ProportionsCounts` (part_001): immutable record of the bunny population at the
start and end of a generation. -/
structure ProportionsCounts where
  generation : Nat
  startCounts : BunnyCounts
  endCounts : BunnyCounts
deriving DecidableEq

/-- Errors raised by the ledger-recording methods of `ProportionsModel`.  In the source
these are assertion failures; `outOfOrder` is the generation-sequencing violation
(`OutOfOrderError` in the spec), `invalidCounts` is the `ProportionsCounts` constructor
assertion that fires when the stored current start counts are `null`. -/
inductive LedgerError where
  | outOfOrder
  | invalidCounts
deriving DecidableEq

/-- The observable state of a `ProportionsModel` (part_000) together with the two
external properties it reads (`clockGenerationProperty`, `isPlayingProperty`,
`liveBunnyCountsProperty`).  `liveCountsLinked` records whether the `updateEndCounts`
listener is currently linked to `liveBunnyCountsProperty`. -/
structure ProportionsModelState where
  clockGeneration : Nat
  isPlaying : Bool
  liveBunnyCounts : BunnyCounts
  valuesVisible : Bool
  proportionsGeneration : Nat
  startCounts : BunnyCounts
  endCounts : BunnyCounts
  currentStartCounts : Option BunnyCounts
  previousCounts : List ProportionsCounts
  furVisible : Bool
  earsVisible : Bool
  teethVisible : Bool
  liveCountsLinked : Bool
deriving DecidableEq

namespace ProportionsModel

/-- The callback of `Multilink.multilink( [ proportionsGenerationProperty,
currentStartCountsProperty ], ... )` in the `ProportionsModel` constructor
(part_000 lines 142-176).  It first unlinks `updateEndCounts`; when there is data and the
current generation is displayed it shows the static start counts and links
`updateEndCounts` (an axon `link` invokes the listener immediately, so `endCounts`
becomes the live counts); when a previous generation is displayed it shows that
generation's stored record (indexing out of bounds in the source throws before either
counts property is assigned); with no data it resets both displayed counts. -/
def updateDisplay (s : ProportionsModelState) : ProportionsModelState :=
  match s.currentStartCounts with
  | some currentStartCounts =>
      if s.proportionsGeneration = s.clockGeneration then
        { s with startCounts := currentStartCounts
                 endCounts := s.liveBunnyCounts
                 liveCountsLinked := true }
      else
        match s.previousCounts.get? s.proportionsGeneration with
        | some counts =>
            { s with startCounts := counts.startCounts
                     endCounts := counts.endCounts
                     liveCountsLinked := false }
        | none => { s with liveCountsLinked := false }
  | none =>
      { s with startCounts := BunnyCounts.withZero
               endCounts := BunnyCounts.withZero
               liveCountsLinked := false }

/-- Assignment to `liveBunnyCountsProperty` (external to `ProportionsModel`; its
`updateEndCounts` listener copies the live counts into `endCountsProperty` while
linked).  In the source each assignment stores a freshly constructed `BunnyCounts`,
so the property always notifies its listeners. -/
def setLiveCounts (c : BunnyCounts) (s : ProportionsModelState) : ProportionsModelState :=
  if s.liveCountsLinked then
    { s with liveBunnyCounts := c, endCounts := c }
  else
    { s with liveBunnyCounts := c }

/-- `ProportionsModel.recordStartCounts( clockGeneration, startCounts )`
(part_000 lines 220-226): asserts that `clockGeneration` is the clock's current
generation, then assigns `currentStartCountsProperty`, whose change notifies the
display multilink. -/
def recordStartCounts (clockGeneration : Nat) (startCounts : BunnyCounts)
    (s : ProportionsModelState) : Except LedgerError ProportionsModelState :=
  if clockGeneration = s.clockGeneration then
    Except.ok (updateDisplay { s with currentStartCounts := some startCounts })
  else
    Except.error LedgerError.outOfOrder

/-- `ProportionsModel.recordEndCounts( generation, endCounts )`
(part_000 lines 234-243): asserts that `generation` is the clock's current generation
minus 1 and that `previousCounts.length === generation`, then pushes a new
`ProportionsCounts` pairing the stored current start counts with `endCounts`.
The `ProportionsCounts` constructor asserts that the start counts are a `BunnyCounts`
(they are `null` before the first `recordStartCounts`). -/
def recordEndCounts (generation : Nat) (endCounts : BunnyCounts)
    (s : ProportionsModelState) : Except LedgerError ProportionsModelState :=
  if generation + 1 = s.clockGeneration then
    if s.previousCounts.length = generation then
      match s.currentStartCounts with
      | some startCounts =>
          Except.ok { s with previousCounts :=
            s.previousCounts ++ [⟨generation, startCounts, endCounts⟩] }
      | none => Except.error LedgerError.invalidCounts
    else
      Except.error LedgerError.outOfOrder
  else
    Except.error LedgerError.outOfOrder

/-- Assignment to `proportionsGenerationProperty` from
`proportionsGenerationProperty.setValueAndRange( clockGeneration, ... )` inside the
`Multilink.multilink( [ isPlayingProperty, clockGenerationProperty ], ... )` callback
(part_000 lines 129-135).  A `NumberProperty` notifies only when the value changes;
the pause link (lines 110-114) then sees `proportionsGeneration === clockGeneration`,
so it does not pause, and the display multilink runs. -/
def setValueAndRangeClock (s : ProportionsModelState) : ProportionsModelState :=
  if s.proportionsGeneration = s.clockGeneration then s
  else updateDisplay { s with proportionsGeneration := s.clockGeneration }

/-- Assignment to `isPlayingProperty` (external).  On an actual change, the
`Multilink.multilink( [ isPlayingProperty, clockGenerationProperty ], ... )` callback
runs: when playing, it snaps `proportionsGenerationProperty` to the clock generation. -/
def setIsPlaying (b : Bool) (s : ProportionsModelState) : ProportionsModelState :=
  if b = s.isPlaying then s
  else
    let t := { s with isPlaying := b }
    if b then setValueAndRangeClock t else t

/-- Increment of `clockGenerationProperty` (the generation clock crossing a generation
boundary, external to `ProportionsModel`).  The
`Multilink.multilink( [ isPlayingProperty, clockGenerationProperty ], ... )` callback
runs: when playing, it snaps `proportionsGenerationProperty` to the new clock
generation. -/
def clockIncrement (s : ProportionsModelState) : ProportionsModelState :=
  let t := { s with clockGeneration := s.clockGeneration + 1 }
  if t.isPlaying then setValueAndRangeClock t else t

/-- An assignment of `proportionsGenerationProperty` (from the generation scroller of
the Proportions graph, or its reset).  Its `NumberProperty` range is
`[ 0, clockGeneration ]` (maintained by `setValueAndRange`), so a value outside the
range fails the range assertion and is not applied; a genuine change notifies the
pause link (part_000 lines 110-114), which pauses the sim when a generation other than
the current generation is being viewed, and then the display multilink. -/
def setProportionsGeneration (g : Nat) (s : ProportionsModelState) : ProportionsModelState :=
  if g ≤ s.clockGeneration ∧ g ≠ s.proportionsGeneration then
    let t := { s with proportionsGeneration := g }
    let t' := if g = t.clockGeneration then t else { t with isPlaying := false }
    updateDisplay t'
  else s

/-- `ProportionsModel.reset()` (part_000 lines 193-203), with each property reset firing
its listeners in source order: `proportionsGenerationProperty.resetValueAndRange()`
(value back to 0) notifies the pause link and the display multilink when the value
actually changes — exactly `setProportionsGeneration 0`; `currentStartCountsProperty.reset()`
(back to `null`) notifies the display multilink when it was not already `null`;
`previousCounts.length = 0` clears the observable array. -/
def reset (s : ProportionsModelState) : ProportionsModelState :=
  let s1 := { s with valuesVisible := true }
  let s2 := setProportionsGeneration 0 s1
  let s3 := { s2 with startCounts := BunnyCounts.withZero }
  let s4 := { s3 with endCounts := BunnyCounts.withZero }
  let s5 :=
    match s4.currentStartCounts with
    | none => s4
    | some _ => updateDisplay { s4 with currentStartCounts := none }
  let s6 := { s5 with previousCounts := [] }
  { s6 with furVisible := true, earsVisible := true, teethVisible := true }

/-- The initial state of a `ProportionsModel` as constructed (part_000 lines 34-188):
clock at generation 0, displayed generation 0, zero displayed counts, `null` current
start counts, empty history, all visibility flags `true`.  The display multilink runs
once at construction; with `currentStartCounts = null` it resets the (already zero)
displayed counts and leaves `updateEndCounts` unlinked.  The initial play state and
live counts are owned by external components and are parameters. -/
def initState (isPlaying0 : Bool) (live0 : BunnyCounts) : ProportionsModelState where
  clockGeneration := 0
  isPlaying := isPlaying0
  liveBunnyCounts := live0
  valuesVisible := true
  proportionsGeneration := 0
  startCounts := BunnyCounts.withZero
  endCounts := BunnyCounts.withZero
  currentStartCounts := none
  previousCounts := []
  furVisible := true
  earsVisible := true
  teethVisible := true
  liveCountsLinked := false

/-- The operations that can act on a `ProportionsModel` and the external properties it
observes. -/
inductive Op where
  | recordStart (clockGeneration : Nat) (startCounts : BunnyCounts)
  | recordEnd (generation : Nat) (endCounts : BunnyCounts)
  | reset
  | clockIncrement
  | setProportionsGeneration (g : Nat)
  | setIsPlaying (b : Bool)
  | setLiveCounts (c : BunnyCounts)

/-- Apply one operation.  A failing ledger call (a fired assertion in the source)
aborts before any state mutation, leaving the state unchanged. -/
def applyOp (s : ProportionsModelState) (op : Op) : ProportionsModelState :=
  match op with
  | Op.recordStart g c =>
      match recordStartCounts g c s with
      | Except.ok s' => s'
      | Except.error _ => s
  | Op.recordEnd g c =>
      match recordEndCounts g c s with
      | Except.ok s' => s'
      | Except.error _ => s
  | Op.reset => reset s
  | Op.clockIncrement => clockIncrement s
  | Op.setProportionsGeneration g => setProportionsGeneration g s
  | Op.setIsPlaying b => setIsPlaying b s
  | Op.setLiveCounts c => setLiveCounts c s

/-- Run a sequence of operations. -/
def runOps (s : ProportionsModelState) (ops : List Op) : ProportionsModelState :=
  ops.foldl applyOp s

/-- One step of the completion log: a successful `recordEndCounts` for generation `g`
(i.e. generation `g` fully completing its cycle) appends `g`; `reset` clears the log,
as it also clears the recorded history. -/
def logStep (s : ProportionsModelState) (log : List Nat) (op : Op) : List Nat :=
  match op with
  | Op.reset => []
  | Op.recordEnd g c =>
      match recordEndCounts g c s with
      | Except.ok _ => log ++ [g]
      | Except.error _ => log
  | _ => log

/-- Run a sequence of operations while logging the generations whose `recordEndCounts`
call succeeded. -/
def runLog (s : ProportionsModelState) (log : List Nat) :
    List Op → ProportionsModelState × List Nat
  | [] => (s, log)
  | op :: rest => runLog (applyOp s op) (logStep s log op) rest

end ProportionsModel

/-- Modelled from the spec: `SimulationMode.js` is not under `src/`; part_003 imports it
and uses its `COMPLETED` value.  The spec's clock state machine has three states:
`Staged`, `Active`, `Completed`. -/
inductive SimulationMode where
  | staged
  | active
  | completed
deriving DecidableEq

namespace NaturalSelectionScreenView

/-- The part of the `NaturalSelectionScreenView` (part_003) state that the
simulation-mode wiring touches: the model's `simulationModeProperty` and the enabled
state of the four controls governed by the `simulationModeProperty.link` callback
(part_003 lines 518-524). -/
structure ViewState where
  simulationMode : SimulationMode
  addMutationsPanelEnabled : Bool
  environmentalFactorsPanelEnabled : Bool
  timeControlEnabled : Bool
  environmentRadioButtonGroupEnabled : Bool
deriving DecidableEq

/-- Assignment of `model.simulationModeProperty`, followed by its `link` callback
(part_003 lines 518-524): `enabled = ( simulationMode !== SimulationMode.COMPLETED )`
is applied to the Add Mutations panel, the Environmental Factors panel, the time
control, and the environment radio button group. -/
def setSimulationMode (mode : SimulationMode) (s : ViewState) : ViewState :=
  let enabled := mode ≠ SimulationMode.completed
  { s with simulationMode := mode
           addMutationsPanelEnabled := enabled
           environmentalFactorsPanelEnabled := enabled
           timeControlEnabled := enabled
           environmentRadioButtonGroupEnabled := enabled }

/-- `endSimulation` (part_003 lines 527-536): sets
`model.simulationModeProperty.value = SimulationMode.COMPLETED` (the sprite-ground
bookkeeping it also performs is outside this model). -/
def endSimulation (s : ViewState) : ViewState :=
  setSimulationMode SimulationMode.completed s

/-- The terminal events of the simulation, each wired (part_003 lines 546-572) to a
listener that calls `endSimulation` and shows the corresponding dialog:
`allBunniesHaveDiedEmitter`, `bunniesHaveTakenOverTheWorldEmitter`,
`memoryLimitEmitter`. -/
inductive TerminalEvent where
  | allBunniesHaveDied
  | bunniesHaveTakenOverTheWorld
  | memoryLimit
deriving DecidableEq

/-- The listener attached to each terminal emitter calls `endSimulation` (the dialog it
then shows has no bearing on the model state). -/
def handleTerminalEvent (_ : TerminalEvent) (s : ViewState) : ViewState :=
  endSimulation s

/-- Operations on the view state: a terminal event fires, or the simulation mode is
assigned directly (a full reset assigns `SimulationMode.STAGED`; starting assigns
`ACTIVE`) — every assignment goes through the property and hence through its link. -/
inductive ViewOp where
  | terminal (e : TerminalEvent)
  | setMode (mode : SimulationMode)

/-- Apply one view operation. -/
def applyViewOp (s : ViewState) (op : ViewOp) : ViewState :=
  match op with
  | ViewOp.terminal e => handleTerminalEvent e s
  | ViewOp.setMode mode => setSimulationMode mode s

/-- The view state as constructed: the sim starts in `STAGED` mode and the link runs
once at registration, enabling the controls. -/
def initViewState : ViewState :=
  setSimulationMode SimulationMode.staged
    ⟨SimulationMode.staged, true, true, true, true⟩

/-- Run a sequence of view operations. -/
def runViewOps (s : ViewState) (ops : List ViewOp) : ViewState :=
  ops.foldl applyViewOp s

end NaturalSelectionScreenView

/-- A 3D model-space vector with exact rational coordinates
(`Vector3` from dot, as used by `EnvironmentModelViewTransform`). -/
structure Vector3Q where
  x : ℚ
  y : ℚ
  z : ℚ
deriving DecidableEq

namespace EnvironmentModelViewTransform

/-- Width of the 2D view (`viewSize.width`). -/
def viewSizeWidth : ℚ := 770

/-- Height of the 2D view (`viewSize.height`). -/
def viewSizeHeight : ℚ := 310

/-- Horizon distance from the top of the view. -/
def yHorizonView : ℚ := 95

/-- z coordinate of the ground at the bottom-front of the view. -/
def zNearModel : ℚ := 150

/-- z coordinate of the ground at the horizon. -/
def zFarModel : ℚ := 300

/-- Rise of the ground from `zNearModel` to `zFarModel`. -/
def riseModel : ℚ := 100

/-- Common scaling factor used to convert x and y between model and view:
`zNearModel * ( viewSize.height - yHorizonView ) / riseModel`. -/
def xyScaleFactor : ℚ := zNearModel * (viewSizeHeight - yHorizonView) / riseModel

/-- `getGroundY( zModel )`: the ground y at the specified z coordinate. -/
def getGroundY (zModel : ℚ) : ℚ :=
  -((zFarModel - zModel) / (zFarModel - zNearModel)) * riseModel

/-- `modelToViewX( position )`: project a 3D model position into 2D view x. -/
def modelToViewX (position : Vector3Q) : ℚ :=
  viewSizeWidth / 2 + (position.x / position.z) * xyScaleFactor

/-- `modelToViewY( position )`: project a 3D model position into 2D view y. -/
def modelToViewY (position : Vector3Q) : ℚ :=
  yHorizonView - (position.y / position.z) * xyScaleFactor

/-- `viewToModelZ( yView )`: the model z value where the ground has view height
`yView`. -/
def viewToModelZ (yView : ℚ) : ℚ :=
  (zNearModel * zFarModel * (yHorizonView - viewSizeHeight)) /
    (zFarModel * (yHorizonView - yView) + zNearModel * (yView - viewSizeHeight))

/-- `viewToModelX( xView, zModel )`: the model x value for a view x at model depth
`zModel`. -/
def viewToModelX (xView zModel : ℚ) : ℚ :=
  zModel * (xView - viewSizeWidth / 2) / xyScaleFactor

/-- `viewToModelGroundPosition( xView, yView )`: the ground position in model
coordinates for view coordinates (x, y). -/
def viewToModelGroundPosition (xView yView : ℚ) : Vector3Q :=
  let zModel := viewToModelZ yView
  let xModel := viewToModelX xView zModel
  let yModel := getGroundY zModel
  ⟨xModel, yModel, zModel⟩

end EnvironmentModelViewTransform

/-- A `Range` from dot as used by `PopulationGenerationScroller`: a min and a max. -/
structure NsRange where
  min : ℚ
  max : ℚ
deriving DecidableEq

/-- `Range.getLength()`: `max - min`. -/
def NsRange.getLength (r : NsRange) : ℚ :=
  r.max - r.min

namespace PopulationGenerationScroller

/-- The `back` callback (PopulationGenerationScroller.js lines 63-68): pauses the sim,
snaps `max` to `Math.ceil( range.max - step )`, and replaces the range keeping the
range length captured at construction.  Returns the new `isPlayingProperty` value and
the new range. -/
def back (step rangeLength : ℚ) (range : NsRange) : Bool × NsRange :=
  let max : ℚ := (Int.ceil (range.max - step) : ℤ)
  (false, ⟨max - rangeLength, max⟩)

/-- The `forward` callback (PopulationGenerationScroller.js lines 76-80): snaps `max` to
`Math.min( maxProperty.value, Math.floor( range.max + step ) )` and replaces the range
keeping the range length captured at construction. -/
def forward (step rangeLength maxValue : ℚ) (range : NsRange) : NsRange :=
  let max : ℚ := min maxValue ((Int.floor (range.max + step) : ℤ) : ℚ)
  ⟨max - rangeLength, max⟩

end PopulationGenerationScroller

namespace ProportionsModel

/-- Concrete counts used to evaluate the model on explicit inputs. -/
def countsA : BunnyCounts := ⟨5, 3, 2, 4, 1, 5, 0⟩

/-- Concrete counts used to evaluate the model on explicit inputs. -/
def countsB : BunnyCounts := ⟨7, 4, 3, 5, 2, 6, 1⟩

/-- Concrete counts used to evaluate the model on explicit inputs. -/
def countsC : BunnyCounts := ⟨9, 5, 4, 6, 3, 7, 2⟩

/-- A freshly constructed, paused model with zero live counts. -/
def stateZero : ProportionsModelState := initState false BunnyCounts.withZero

/-- A concrete trace that completes generations 0, 1 and 2: each generation records its
start counts, the clock crosses the boundary, and the finished generation records its
end counts. -/
def traceThree : List Op :=
  [Op.recordStart 0 countsA, Op.clockIncrement, Op.recordEnd 0 countsB,
   Op.recordStart 1 countsB, Op.clockIncrement, Op.recordEnd 1 countsC,
   Op.recordStart 2 countsC, Op.clockIncrement, Op.recordEnd 2 countsA]

/-- `traceThree` extended by a fourth completed generation. -/
def traceFour : List Op :=
  traceThree ++ [Op.recordStart 3 countsB, Op.clockIncrement, Op.recordEnd 3 countsC]

/-- The state after one `recordStartCounts( 0, countsA )` on a fresh model. -/
def stateAfterFirstStart : ProportionsModelState :=
  applyOp stateZero (Op.recordStart 0 countsA)

/-- The state after a second `recordStartCounts( 0, countsB )` for the same
generation 0. -/
def stateAfterSecondStart : ProportionsModelState :=
  applyOp stateAfterFirstStart (Op.recordStart 0 countsB)

/-- A state in which generation 0 has started and the clock has crossed into
generation 1, so that `recordEndCounts( 0, _ )` is legal. -/
def stateBeforeEnd : ProportionsModelState :=
  runOps stateZero [Op.recordStart 0 countsA, Op.clockIncrement]

/-- The state after the legal `recordEndCounts( 0, countsB )` on `stateBeforeEnd`. -/
def stateAfterEnd : ProportionsModelState :=
  applyOp stateBeforeEnd (Op.recordEnd 0 countsB)

/-- The state reached from a fresh model by a sequence of operations. -/
def reachState (isPlaying0 : Bool) (live0 : BunnyCounts) (ops : List Op) :
    ProportionsModelState :=
  runOps (initState isPlaying0 live0) ops

/-- The state and completion log reached from a fresh model by a sequence of
operations. -/
def reachLog (isPlaying0 : Bool) (live0 : BunnyCounts) (ops : List Op) :
    ProportionsModelState × List Nat :=
  runLog (initState isPlaying0 live0) [] ops

/-- A playing state at clock generation 3 with three completed generations. -/
def statePlaying : ProportionsModelState :=
  reachState false BunnyCounts.withZero (traceThree ++ [Op.setIsPlaying true])

/-- A state at clock generation 3 that displays previous generation 1 while
generation 3's start counts are recorded. -/
def stateViewingPrevious : ProportionsModelState :=
  reachState false BunnyCounts.withZero
    (traceThree ++ [Op.recordStart 3 countsB, Op.setProportionsGeneration 1])

end ProportionsModel

namespace ProportionsModel

theorem updateDisplay_shape (s : ProportionsModelState) :
    ∃ sc ec lk, updateDisplay s =
      { s with startCounts := sc, endCounts := ec, liveCountsLinked := lk } := by
  unfold updateDisplay
  split
  · split
    · exact ⟨_, _, _, rfl⟩
    · split
      · exact ⟨_, _, _, rfl⟩
      · exact ⟨_, _, _, rfl⟩
  · exact ⟨_, _, _, rfl⟩

theorem updateDisplay_previousCounts (s : ProportionsModelState) :
    (updateDisplay s).previousCounts = s.previousCounts := by
  obtain ⟨a, b, c, h⟩ := updateDisplay_shape s
  rw [h]

theorem updateDisplay_clockGeneration (s : ProportionsModelState) :
    (updateDisplay s).clockGeneration = s.clockGeneration := by
  obtain ⟨a, b, c, h⟩ := updateDisplay_shape s
  rw [h]

theorem updateDisplay_isPlaying (s : ProportionsModelState) :
    (updateDisplay s).isPlaying = s.isPlaying := by
  obtain ⟨a, b, c, h⟩ := updateDisplay_shape s
  rw [h]

theorem updateDisplay_proportionsGeneration (s : ProportionsModelState) :
    (updateDisplay s).proportionsGeneration = s.proportionsGeneration := by
  obtain ⟨a, b, c, h⟩ := updateDisplay_shape s
  rw [h]

theorem updateDisplay_currentStartCounts (s : ProportionsModelState) :
    (updateDisplay s).currentStartCounts = s.currentStartCounts := by
  obtain ⟨a, b, c, h⟩ := updateDisplay_shape s
  rw [h]

theorem updateDisplay_liveBunnyCounts (s : ProportionsModelState) :
    (updateDisplay s).liveBunnyCounts = s.liveBunnyCounts := by
  obtain ⟨a, b, c, h⟩ := updateDisplay_shape s
  rw [h]

theorem setLiveCounts_previousCounts (c : BunnyCounts) (s : ProportionsModelState) :
    (setLiveCounts c s).previousCounts = s.previousCounts := by
  unfold setLiveCounts
  split <;> rfl

theorem setLiveCounts_clockGeneration (c : BunnyCounts) (s : ProportionsModelState) :
    (setLiveCounts c s).clockGeneration = s.clockGeneration := by
  unfold setLiveCounts
  split <;> rfl

theorem setLiveCounts_isPlaying (c : BunnyCounts) (s : ProportionsModelState) :
    (setLiveCounts c s).isPlaying = s.isPlaying := by
  unfold setLiveCounts
  split <;> rfl

theorem setLiveCounts_proportionsGeneration (c : BunnyCounts) (s : ProportionsModelState) :
    (setLiveCounts c s).proportionsGeneration = s.proportionsGeneration := by
  unfold setLiveCounts
  split <;> rfl

theorem setValueAndRangeClock_previousCounts (s : ProportionsModelState) :
    (setValueAndRangeClock s).previousCounts = s.previousCounts := by
  unfold setValueAndRangeClock
  split
  · rfl
  · rw [updateDisplay_previousCounts]

theorem setValueAndRangeClock_clockGeneration (s : ProportionsModelState) :
    (setValueAndRangeClock s).clockGeneration = s.clockGeneration := by
  unfold setValueAndRangeClock
  split
  · rfl
  · rw [updateDisplay_clockGeneration]

theorem setValueAndRangeClock_isPlaying (s : ProportionsModelState) :
    (setValueAndRangeClock s).isPlaying = s.isPlaying := by
  unfold setValueAndRangeClock
  split
  · rfl
  · rw [updateDisplay_isPlaying]

theorem setValueAndRangeClock_proportionsGeneration (s : ProportionsModelState) :
    (setValueAndRangeClock s).proportionsGeneration = s.clockGeneration := by
  unfold setValueAndRangeClock
  split
  · assumption
  · rw [updateDisplay_proportionsGeneration]

theorem setIsPlaying_previousCounts (b : Bool) (s : ProportionsModelState) :
    (setIsPlaying b s).previousCounts = s.previousCounts := by
  unfold setIsPlaying
  split
  · rfl
  · split
    · rw [setValueAndRangeClock_previousCounts]
    · rfl

theorem setIsPlaying_clockGeneration (b : Bool) (s : ProportionsModelState) :
    (setIsPlaying b s).clockGeneration = s.clockGeneration := by
  unfold setIsPlaying
  split
  · rfl
  · split
    · rw [setValueAndRangeClock_clockGeneration]
    · rfl

theorem setProportionsGeneration_previousCounts (g : Nat) (s : ProportionsModelState) :
    (setProportionsGeneration g s).previousCounts = s.previousCounts := by
  unfold setProportionsGeneration
  split
  · rw [updateDisplay_previousCounts]
    split <;> rfl
  · rfl

theorem setProportionsGeneration_clockGeneration (g : Nat) (s : ProportionsModelState) :
    (setProportionsGeneration g s).clockGeneration = s.clockGeneration := by
  unfold setProportionsGeneration
  split
  · rw [updateDisplay_clockGeneration]
    split <;> rfl
  · rfl

theorem clockIncrement_previousCounts (s : ProportionsModelState) :
    (clockIncrement s).previousCounts = s.previousCounts := by
  by_cases h : s.isPlaying <;>
    simp [clockIncrement, h, setValueAndRangeClock_previousCounts]

theorem clockIncrement_clockGeneration (s : ProportionsModelState) :
    (clockIncrement s).clockGeneration = s.clockGeneration + 1 := by
  by_cases h : s.isPlaying <;>
    simp [clockIncrement, h, setValueAndRangeClock_clockGeneration]

theorem updateDisplay_none (s : ProportionsModelState)
    (h : s.currentStartCounts = none) :
    updateDisplay s =
      { s with startCounts := BunnyCounts.withZero
               endCounts := BunnyCounts.withZero
               liveCountsLinked := false } := by
  unfold updateDisplay
  rw [h]

theorem setProportionsGeneration_currentStartCounts (g : Nat) (s : ProportionsModelState) :
    (setProportionsGeneration g s).currentStartCounts = s.currentStartCounts := by
  unfold setProportionsGeneration
  split
  · rw [updateDisplay_currentStartCounts]
    split <;> rfl
  · rfl

theorem setProportionsGeneration_isPlaying (g : Nat) (s : ProportionsModelState)
    (h : (setProportionsGeneration g s).isPlaying = true) :
    s.isPlaying = true ∧ (¬g ≤ s.clockGeneration ∨ g = s.proportionsGeneration ∨ g = s.clockGeneration) := by
  unfold setProportionsGeneration at h
  by_cases hgate : g ≤ s.clockGeneration ∧ g ≠ s.proportionsGeneration
  · rw [if_pos hgate, updateDisplay_isPlaying] at h
    by_cases hg : g = s.clockGeneration
    · rw [if_pos hg] at h
      exact ⟨h, Or.inr (Or.inr hg)⟩
    · rw [if_neg hg] at h
      exact absurd h (by simp)
  · rw [if_neg hgate] at h
    refine ⟨h, ?_⟩
    rcases not_and_or.mp hgate with h' | h'
    · exact Or.inl h'
    · exact Or.inr (Or.inl (not_not.mp h'))

theorem setProportionsGeneration_proportionsGeneration (g : Nat) (s : ProportionsModelState)
    (h : g ≤ s.clockGeneration) :
    (setProportionsGeneration g s).proportionsGeneration = g := by
  unfold setProportionsGeneration
  by_cases hg : g = s.proportionsGeneration
  · rw [if_neg (by simp [hg])]
    exact hg.symm
  · rw [if_pos ⟨h, hg⟩, updateDisplay_proportionsGeneration]
    split <;> rfl

theorem reset_previousCounts (s : ProportionsModelState) :
    (reset s).previousCounts = [] := by
  unfold reset
  rfl

theorem reset_clockGeneration (s : ProportionsModelState) :
    (reset s).clockGeneration = s.clockGeneration := by
  rcases h2 : s.currentStartCounts with _ | u <;>
    simp [reset, h2, updateDisplay_clockGeneration, updateDisplay_currentStartCounts,
      setProportionsGeneration_currentStartCounts, setProportionsGeneration_clockGeneration]

theorem reset_currentStartCounts (s : ProportionsModelState) :
    (reset s).currentStartCounts = none := by
  rcases h2 : s.currentStartCounts with _ | u <;>
    simp [reset, h2, updateDisplay_currentStartCounts,
      setProportionsGeneration_currentStartCounts]

theorem reset_proportionsGeneration (s : ProportionsModelState) :
    (reset s).proportionsGeneration = 0 := by
  rcases h2 : s.currentStartCounts with _ | u <;>
    simp [reset, h2, updateDisplay_proportionsGeneration, updateDisplay_currentStartCounts,
      setProportionsGeneration_currentStartCounts,
      setProportionsGeneration_proportionsGeneration]

theorem reset_startCounts (s : ProportionsModelState) :
    (reset s).startCounts = BunnyCounts.withZero := by
  rcases h2 : s.currentStartCounts with _ | u <;>
    simp [reset, h2, updateDisplay_none, updateDisplay_currentStartCounts,
      setProportionsGeneration_currentStartCounts]

theorem reset_endCounts (s : ProportionsModelState) :
    (reset s).endCounts = BunnyCounts.withZero := by
  rcases h2 : s.currentStartCounts with _ | u <;>
    simp [reset, h2, updateDisplay_none, updateDisplay_currentStartCounts,
      setProportionsGeneration_currentStartCounts]

theorem reset_isPlaying (s : ProportionsModelState)
    (h : (reset s).isPlaying = true) :
    s.isPlaying = true ∧ (0 = s.proportionsGeneration ∨ 0 = s.clockGeneration) := by
  have hmain : (reset s).isPlaying = (setProportionsGeneration 0 { s with valuesVisible := true }).isPlaying := by
    rcases h2 : s.currentStartCounts with _ | u <;>
      simp [reset, h2, updateDisplay_isPlaying, updateDisplay_currentStartCounts,
        setProportionsGeneration_currentStartCounts]
  rw [hmain] at h
  obtain ⟨h1, h2⟩ := setProportionsGeneration_isPlaying 0 _ h
  refine ⟨h1, ?_⟩
  rcases h2 with h' | h' | h'
  · exact absurd (Nat.zero_le _) h'
  · exact Or.inl h'
  · exact Or.inr h'

/-- The ledger history invariant: the recorded generations are exactly
`0, 1, ..., length - 1` in order, and the completion log contains exactly the
generations having a record. -/
def LedgerInv (s : ProportionsModelState) (log : List Nat) : Prop :=
  s.previousCounts.map ProportionsCounts.generation = List.range s.previousCounts.length ∧
  ∀ g, g ∈ log ↔ g < s.previousCounts.length

theorem ledgerInv_step (s : ProportionsModelState) (log : List Nat) (op : Op)
    (h : LedgerInv s log) : LedgerInv (applyOp s op) (logStep s log op) := by
  obtain ⟨hmap, hlog⟩ := h
  unfold LedgerInv
  cases op with
  | recordStart g c =>
      by_cases hg : g = s.clockGeneration <;>
        simp [applyOp, recordStartCounts, logStep, hg, updateDisplay_previousCounts,
          hmap, hlog]
  | recordEnd g c =>
      by_cases hg : g + 1 = s.clockGeneration
      · by_cases hlen : s.previousCounts.length = g
        · rcases hsc : s.currentStartCounts with _ | sc
          · simp [applyOp, recordEndCounts, logStep, hg, hlen, hsc, hmap, hlog]
          · constructor
            · simp only [applyOp, recordEndCounts, logStep, hg, hlen, hsc, if_pos]
              simp [List.range_succ, hmap, hlen]
            · intro g'
              simp only [applyOp, recordEndCounts, logStep, hg, hlen, hsc, if_pos]
              simp only [List.mem_append, List.mem_singleton, hlog g',
                List.length_append, List.length_singleton]
              omega
        · simp [applyOp, recordEndCounts, logStep, hg, hlen, hmap, hlog]
      · simp [applyOp, recordEndCounts, logStep, hg, hmap, hlog]
  | reset =>
      simp [applyOp, logStep, reset_previousCounts]
  | clockIncrement =>
      simp [applyOp, logStep, clockIncrement_previousCounts, hmap, hlog]
  | setProportionsGeneration g =>
      simp [applyOp, logStep, setProportionsGeneration_previousCounts, hmap, hlog]
  | setIsPlaying b =>
      simp [applyOp, logStep, setIsPlaying_previousCounts, hmap, hlog]
  | setLiveCounts c =>
      simp [applyOp, logStep, setLiveCounts_previousCounts, hmap, hlog]

theorem ledgerInv_run (ops : List Op) :
    ∀ (s : ProportionsModelState) (log : List Nat), LedgerInv s log →
      LedgerInv (runLog s log ops).1 (runLog s log ops).2 := by
  induction ops with
  | nil => intro s log h; exact h
  | cons op rest ih =>
      intro s log h
      exact ih (applyOp s op) (logStep s log op) (ledgerInv_step s log op h)

theorem runLog_fst (ops : List Op) :
    ∀ (s : ProportionsModelState) (log : List Nat),
      (runLog s log ops).1 = runOps s ops := by
  induction ops with
  | nil => intro s log; rfl
  | cons op rest ih => intro s log; exact ih (applyOp s op) (logStep s log op)

/-- The play/display-generation invariant: while the sim is playing, the Proportions
graph displays the clock's current generation. -/
def PlayInv (s : ProportionsModelState) : Prop :=
  s.isPlaying = true → s.proportionsGeneration = s.clockGeneration

theorem playInv_step (s : ProportionsModelState) (op : Op)
    (h : PlayInv s) : PlayInv (applyOp s op) := by
  unfold PlayInv at *
  cases op with
  | recordStart g c =>
      by_cases hg : g = s.clockGeneration <;>
        simp [applyOp, recordStartCounts, hg, updateDisplay_isPlaying,
          updateDisplay_proportionsGeneration, updateDisplay_clockGeneration] <;>
        exact h
  | recordEnd g c =>
      by_cases hg : g + 1 = s.clockGeneration
      · by_cases hlen : s.previousCounts.length = g
        · rcases hsc : s.currentStartCounts with _ | sc <;>
            simp [applyOp, recordEndCounts, hg, hlen, hsc] <;> exact h
        · simp [applyOp, recordEndCounts, hg, hlen]; exact h
      · simp [applyOp, recordEndCounts, hg]; exact h
  | reset =>
      simp only [applyOp]
      intro hp
      obtain ⟨h1, h2⟩ := reset_isPlaying s hp
      rw [reset_proportionsGeneration, reset_clockGeneration]
      rcases h2 with h' | h'
      · rw [← h'] at h
        exact h h1
      · exact h'
  | clockIncrement =>
      by_cases hip : s.isPlaying
      · simp [applyOp, clockIncrement, hip, setValueAndRangeClock_proportionsGeneration,
          setValueAndRangeClock_clockGeneration]
      · simp [applyOp, clockIncrement, hip]
  | setProportionsGeneration g =>
      by_cases hgate : g ≤ s.clockGeneration ∧ g ≠ s.proportionsGeneration
      · by_cases hg : g = s.clockGeneration
        · subst hg
          obtain ⟨hle, hne⟩ := hgate
          simp [applyOp, setProportionsGeneration, hne,
            updateDisplay_proportionsGeneration, updateDisplay_clockGeneration]
        · simp [applyOp, setProportionsGeneration, hgate, hg, updateDisplay_isPlaying]
      · simp [applyOp, setProportionsGeneration, hgate]; exact h
  | setIsPlaying b =>
      by_cases hb : b = s.isPlaying
      · simp [applyOp, setIsPlaying, hb]; exact h
      · cases b with
        | true =>
            simp [applyOp, setIsPlaying, hb, setValueAndRangeClock_proportionsGeneration,
              setValueAndRangeClock_clockGeneration, setValueAndRangeClock_isPlaying]
        | false =>
            simp [applyOp, setIsPlaying, hb]
  | setLiveCounts c =>
      simp [applyOp, setLiveCounts]
      split <;> simpa using h

theorem playInv_run (ops : List Op) :
    ∀ s : ProportionsModelState, PlayInv s → PlayInv (runOps s ops) := by
  induction ops with
  | nil => intro s h; exact h
  | cons op rest ih => intro s h; exact ih (applyOp s op) (playInv_step s op h)

/-- The length-bound invariant: the history never holds more records than the clock's
current generation number. -/
def LenInv (s : ProportionsModelState) : Prop :=
  s.previousCounts.length ≤ s.clockGeneration

theorem lenInv_step (s : ProportionsModelState) (op : Op)
    (h : LenInv s) : LenInv (applyOp s op) := by
  unfold LenInv at *
  cases op with
  | recordStart g c =>
      by_cases hg : g = s.clockGeneration <;>
        simp [applyOp, recordStartCounts, hg, updateDisplay_previousCounts,
          updateDisplay_clockGeneration] <;> exact h
  | recordEnd g c =>
      by_cases hg : g + 1 = s.clockGeneration
      · by_cases hlen : s.previousCounts.length = g
        · rcases hsc : s.currentStartCounts with _ | sc <;>
            simp [applyOp, recordEndCounts, hg, hlen, hsc]
          all_goals omega
        · simp [applyOp, recordEndCounts, hg, hlen]; exact h
      · simp [applyOp, recordEndCounts, hg]; exact h
  | reset =>
      simp [applyOp, reset_previousCounts]
  | clockIncrement =>
      simp [applyOp, clockIncrement_previousCounts, clockIncrement_clockGeneration]
      omega
  | setProportionsGeneration g =>
      simp [applyOp, setProportionsGeneration_previousCounts,
        setProportionsGeneration_clockGeneration]
      exact h
  | setIsPlaying b =>
      simp [applyOp, setIsPlaying_previousCounts, setIsPlaying_clockGeneration]
      exact h
  | setLiveCounts c =>
      simp [applyOp, setLiveCounts_previousCounts, setLiveCounts_clockGeneration]
      exact h

theorem lenInv_run (ops : List Op) :
    ∀ s : ProportionsModelState, LenInv s → LenInv (runOps s ops) := by
  induction ops with
  | nil => intro s h; exact h
  | cons op rest ih => intro s h; exact ih (applyOp s op) (lenInv_step s op h)

end ProportionsModel

namespace ProportionsModel

theorem recordEndCounts_ok (s s' : ProportionsModelState) (g : Nat) (c : BunnyCounts)
    (h : recordEndCounts g c s = Except.ok s') :
    g + 1 = s.clockGeneration ∧ s.previousCounts.length = g ∧
      ∃ sc, s.currentStartCounts = some sc ∧
        s' = { s with previousCounts := s.previousCounts ++ [⟨g, sc, c⟩] } := by
  by_cases h1 : g + 1 = s.clockGeneration
  · by_cases h2 : s.previousCounts.length = g
    · rcases h3 : s.currentStartCounts with _ | sc
      · simp [recordEndCounts, h1, h2, h3] at h
      · have key : recordEndCounts g c s = Except.ok
            { s with currentStartCounts := some sc,
                     previousCounts := s.previousCounts ++ [⟨g, sc, c⟩] } := by
          unfold recordEndCounts
          rw [if_pos h1, if_pos h2, h3]
        rw [key] at h
        have h4 := Except.ok.inj h
        refine ⟨h1, h2, sc, rfl, ?_⟩
        rw [← h4, ← h3]
    · simp [recordEndCounts, h1, h2] at h
  · simp [recordEndCounts, h1] at h

theorem recordEndCounts_error (s : ProportionsModelState) (g : Nat) (c : BunnyCounts)
    (h : ¬(g + 1 = s.clockGeneration ∧ s.previousCounts.length = g)) :
    recordEndCounts g c s = Except.error LedgerError.outOfOrder := by
  unfold recordEndCounts
  rcases not_and_or.mp h with h1 | h2
  · rw [if_neg h1]
  · by_cases h1 : g + 1 = s.clockGeneration
    · rw [if_pos h1, if_neg h2]
    · rw [if_neg h1]

theorem ledgerInv_init (isPlaying0 : Bool) (live0 : BunnyCounts) :
    LedgerInv (initState isPlaying0 live0) [] := by
  constructor
  · simp [initState]
  · intro g
    simp [initState]

theorem ledgerInv_reach (isPlaying0 : Bool) (live0 : BunnyCounts) (ops : List Op) :
    LedgerInv (reachLog isPlaying0 live0 ops).1 (reachLog isPlaying0 live0 ops).2 :=
  ledgerInv_run ops (initState isPlaying0 live0) [] (ledgerInv_init isPlaying0 live0)

end ProportionsModel

/-- C1: Ledger history invariant — in every state of the ledger (`ProportionsModel`)
reachable from a fresh model by any sequence of operations, the sequence of
previous-generation records is strictly increasing in generation with no gaps: for
every index `i < previousCounts.length`, `previousCounts[i].generation = i`; and a
record for generation `g` exists if and only if generation `g` has fully completed its
cycle, i.e. a `recordEndCounts` call for `g` has succeeded (since the last reset, which
clears the history). -/
theorem ledger_history_invariant (isPlaying0 : Bool) (live0 : BunnyCounts)
    (ops : List ProportionsModel.Op) :
    ((ProportionsModel.reachLog isPlaying0 live0 ops).1.previousCounts.map
        ProportionsCounts.generation =
      List.range
        (ProportionsModel.reachLog isPlaying0 live0 ops).1.previousCounts.length) ∧
    (∀ i (h : i < (ProportionsModel.reachLog isPlaying0 live0 ops).1.previousCounts.length),
      ((ProportionsModel.reachLog isPlaying0 live0 ops).1.previousCounts.get ⟨i, h⟩).generation = i) ∧
    (∀ g, (∃ r ∈ (ProportionsModel.reachLog isPlaying0 live0 ops).1.previousCounts,
        r.generation = g) ↔ g ∈ (ProportionsModel.reachLog isPlaying0 live0 ops).2) := by
  obtain ⟨hmap, hlog⟩ := ProportionsModel.ledgerInv_reach isPlaying0 live0 ops
  refine ⟨hmap, ?_, ?_⟩
  · intro i hi
    have h2 : ((ProportionsModel.reachLog isPlaying0 live0 ops).1.previousCounts.map
        ProportionsCounts.generation)[i]? =
        (List.range
          (ProportionsModel.reachLog isPlaying0 live0 ops).1.previousCounts.length)[i]? := by
      rw [hmap]
    rw [List.getElem?_map, List.getElem?_range hi, List.getElem?_eq_getElem hi] at h2
    simpa [List.get_eq_getElem] using h2
  · intro g
    constructor
    · rintro ⟨r, hr, hrg⟩
      have hmem : r.generation ∈
          (ProportionsModel.reachLog isPlaying0 live0 ops).1.previousCounts.map
            ProportionsCounts.generation :=
        List.mem_map.mpr ⟨r, hr, rfl⟩
      rw [hmap, hrg] at hmem
      exact (hlog g).mpr (List.mem_range.mp hmem)
    · intro hg
      have hlt := (hlog g).mp hg
      have hmem : g ∈
          (ProportionsModel.reachLog isPlaying0 live0 ops).1.previousCounts.map
            ProportionsCounts.generation := by
        rw [hmap]
        exact List.mem_range.mpr hlt
      exact List.mem_map.mp hmem

/-- Witness for C1: evaluated on the concrete trace `traceThree` that completes
generations 0, 1, 2 — the record at index 1 has generation 1, and a record for
generation 2 exists exactly when generation 2 completed. -/
theorem ledger_history_invariant_witness :
    (((ProportionsModel.reachLog false BunnyCounts.withZero ProportionsModel.traceThree).1.previousCounts.get
        ⟨1, by decide⟩).generation = 1) ∧
    ((∃ r ∈ (ProportionsModel.reachLog false BunnyCounts.withZero ProportionsModel.traceThree).1.previousCounts,
        r.generation = 2) ↔
      2 ∈ (ProportionsModel.reachLog false BunnyCounts.withZero ProportionsModel.traceThree).2) := by
  constructor
  · exact (ledger_history_invariant false BunnyCounts.withZero ProportionsModel.traceThree).2.1
      1 (by decide)
  · exact (ledger_history_invariant false BunnyCounts.withZero ProportionsModel.traceThree).2.2 2

/-- C2: recordEnd contract — `recordEndCounts( g, endCounts )` succeeds only when `g`
is the clock's current generation minus 1 and the ledger has no end record for `g`
yet (exactly `previousCounts.length = g`); on success it appends exactly one record
pairing the stored start counts with `endCounts`; a violation of these conditions
fails with `OutOfOrderError` and leaves the history (indeed the whole state)
unchanged; in particular a repeated `recordEndCounts` for the same `g` after a
successful one fails with `OutOfOrderError`. -/
theorem recordEnd_contract (s : ProportionsModelState) (g : Nat) (c : BunnyCounts) :
    (∀ s', ProportionsModel.recordEndCounts g c s = Except.ok s' →
        g + 1 = s.clockGeneration ∧ s.previousCounts.length = g ∧
        ∃ sc, s.currentStartCounts = some sc ∧
          s' = { s with previousCounts := s.previousCounts ++ [⟨g, sc, c⟩] }) ∧
    (¬(g + 1 = s.clockGeneration ∧ s.previousCounts.length = g) →
        ProportionsModel.recordEndCounts g c s = Except.error LedgerError.outOfOrder ∧
        ProportionsModel.applyOp s (ProportionsModel.Op.recordEnd g c) = s) ∧
    (∀ s' c', ProportionsModel.recordEndCounts g c s = Except.ok s' →
        ProportionsModel.recordEndCounts g c' s' = Except.error LedgerError.outOfOrder) := by
  refine ⟨?_, ?_, ?_⟩
  · intro s' h
    exact ProportionsModel.recordEndCounts_ok s s' g c h
  · intro hviol
    have herr := ProportionsModel.recordEndCounts_error s g c hviol
    exact ⟨herr, by simp [ProportionsModel.applyOp, herr]⟩
  · intro s' c' h
    obtain ⟨h1, h2, sc, hsc, hs'⟩ := ProportionsModel.recordEndCounts_ok s s' g c h
    apply ProportionsModel.recordEndCounts_error
    intro hcon
    have hlen : s'.previousCounts.length = s.previousCounts.length + 1 := by
      rw [hs']
      simp
    omega

/-- Witness for C2: evaluated on a concrete state in which generation 0 has started
and the clock is at generation 1 — the legal `recordEndCounts( 0, countsB )` succeeds
and appends the record, and a second `recordEndCounts` for generation 0 fails with
`OutOfOrderError`; a `recordEndCounts` on a fresh model (clock at 0) fails and leaves
the state unchanged. -/
theorem recordEnd_contract_witness :
    (0 + 1 = ProportionsModel.stateBeforeEnd.clockGeneration ∧
      ProportionsModel.stateBeforeEnd.previousCounts.length = 0 ∧
      ∃ sc, ProportionsModel.stateBeforeEnd.currentStartCounts = some sc ∧
        ProportionsModel.stateAfterEnd = { ProportionsModel.stateBeforeEnd with
          previousCounts :=
            ProportionsModel.stateBeforeEnd.previousCounts ++ [⟨0, sc, ProportionsModel.countsB⟩] }) ∧
    ProportionsModel.recordEndCounts 0 ProportionsModel.countsA ProportionsModel.stateAfterEnd =
      Except.error LedgerError.outOfOrder ∧
    ProportionsModel.applyOp ProportionsModel.stateZero
      (ProportionsModel.Op.recordEnd 0 ProportionsModel.countsA) = ProportionsModel.stateZero := by
  refine ⟨?_, ?_, ?_⟩
  · exact (recordEnd_contract ProportionsModel.stateBeforeEnd 0 ProportionsModel.countsB).1
      ProportionsModel.stateAfterEnd rfl
  · exact (recordEnd_contract ProportionsModel.stateBeforeEnd 0 ProportionsModel.countsB).2.2
      ProportionsModel.stateAfterEnd ProportionsModel.countsA rfl
  · exact ((recordEnd_contract ProportionsModel.stateZero 0 ProportionsModel.countsA).2.1
      (by decide)).2

/-- C3 counterexample: the claim states that a second start record for the same
generation is rejected; but on a fresh model (clock at generation 0), after a
successful `recordStartCounts( 0, countsA )`, a second `recordStartCounts( 0, countsB )`
for the same generation 0 also succeeds and overwrites the stored start counts with
`countsB` — it is not rejected. -/
theorem recordStart_second_call_not_rejected :
    ProportionsModel.recordStartCounts 0 ProportionsModel.countsA ProportionsModel.stateZero =
      Except.ok ProportionsModel.stateAfterFirstStart ∧
    ProportionsModel.recordStartCounts 0 ProportionsModel.countsB
        ProportionsModel.stateAfterFirstStart =
      Except.ok ProportionsModel.stateAfterSecondStart ∧
    ProportionsModel.stateAfterSecondStart.currentStartCounts = some ProportionsModel.countsB := by
  refine ⟨rfl, rfl, rfl⟩

/-- C3 (amended): recordStart contract — `recordStartCounts( g, startCounts )` fails
with `OutOfOrderError` unless `g` equals the clock's current generation, leaving the
state unchanged; on success it sets the ledger's single current-start-counts slot to
`startCounts` (so at most one start record is stored at a time); a second
`recordStartCounts` call for the same current generation also succeeds and overwrites
the slot — it is not rejected. -/
theorem recordStart_contract_amended (s : ProportionsModelState) (g : Nat)
    (c : BunnyCounts) :
    (g = s.clockGeneration →
        ProportionsModel.recordStartCounts g c s =
          Except.ok (ProportionsModel.updateDisplay { s with currentStartCounts := some c }) ∧
        (ProportionsModel.applyOp s (ProportionsModel.Op.recordStart g c)).currentStartCounts =
          some c ∧
        ∀ c', ProportionsModel.recordStartCounts g c'
            (ProportionsModel.applyOp s (ProportionsModel.Op.recordStart g c)) =
          Except.ok (ProportionsModel.applyOp
            (ProportionsModel.applyOp s (ProportionsModel.Op.recordStart g c))
            (ProportionsModel.Op.recordStart g c')) ∧
          (ProportionsModel.applyOp
            (ProportionsModel.applyOp s (ProportionsModel.Op.recordStart g c))
            (ProportionsModel.Op.recordStart g c')).currentStartCounts = some c') ∧
    (g ≠ s.clockGeneration →
        ProportionsModel.recordStartCounts g c s = Except.error LedgerError.outOfOrder ∧
        ProportionsModel.applyOp s (ProportionsModel.Op.recordStart g c) = s) := by
  constructor
  · intro hg
    have hok : ProportionsModel.recordStartCounts g c s =
        Except.ok (ProportionsModel.updateDisplay { s with currentStartCounts := some c }) := by
      unfold ProportionsModel.recordStartCounts
      rw [if_pos hg]
    have happ : ProportionsModel.applyOp s (ProportionsModel.Op.recordStart g c) =
        ProportionsModel.updateDisplay { s with currentStartCounts := some c } := by
      simp [ProportionsModel.applyOp, hok]
    have hcurr : (ProportionsModel.applyOp s
        (ProportionsModel.Op.recordStart g c)).currentStartCounts = some c := by
      rw [happ, ProportionsModel.updateDisplay_currentStartCounts]
    have hclock : (ProportionsModel.applyOp s
        (ProportionsModel.Op.recordStart g c)).clockGeneration = s.clockGeneration := by
      rw [happ, ProportionsModel.updateDisplay_clockGeneration]
    refine ⟨hok, hcurr, ?_⟩
    intro c'
    generalize happA : ProportionsModel.applyOp s (ProportionsModel.Op.recordStart g c) = A
    rw [happA] at hclock
    have hok' : ProportionsModel.recordStartCounts g c' A =
        Except.ok (ProportionsModel.updateDisplay
          { A with currentStartCounts := some c' }) := by
      unfold ProportionsModel.recordStartCounts
      rw [if_pos (by rw [hclock]; exact hg)]
    refine ⟨?_, ?_⟩
    · simp [ProportionsModel.applyOp, hok']
    · simp [ProportionsModel.applyOp, hok',
        ProportionsModel.updateDisplay_currentStartCounts]
  · intro hg
    have herr : ProportionsModel.recordStartCounts g c s =
        Except.error LedgerError.outOfOrder := by
      unfold ProportionsModel.recordStartCounts
      rw [if_neg hg]
    exact ⟨herr, by simp [ProportionsModel.applyOp, herr]⟩

/-- Witness for C3 (amended): on a fresh model at clock generation 0,
`recordStartCounts( 0, countsA )` stores `countsA` in the current-start-counts slot,
while `recordStartCounts( 1, countsA )` fails with `OutOfOrderError`. -/
theorem recordStart_contract_amended_witness :
    (ProportionsModel.applyOp ProportionsModel.stateZero
        (ProportionsModel.Op.recordStart 0 ProportionsModel.countsA)).currentStartCounts =
      some ProportionsModel.countsA ∧
    ProportionsModel.recordStartCounts 1 ProportionsModel.countsA ProportionsModel.stateZero =
      Except.error LedgerError.outOfOrder := by
  constructor
  · exact ((recordStart_contract_amended ProportionsModel.stateZero 0
      ProportionsModel.countsA).1 rfl).2.1
  · exact ((recordStart_contract_amended ProportionsModel.stateZero 1
      ProportionsModel.countsA).2 (by decide)).1

/-- C4 counterexample: the ledger never evicts records.  `ProportionsModel` has no
retention-limit configuration; `recordEndCounts` only ever pushes.  Concretely, after
completing three generations from a fresh model the history holds the records for
generations 0, 1, 2, and completing a fourth generation grows the history to
0, 1, 2, 3 — the oldest record (generation 0) is still at index 0, so no "oldest
records" were evicted as the history grew. -/
theorem history_no_eviction_counterexample :
    (ProportionsModel.reachState false BunnyCounts.withZero
        ProportionsModel.traceThree).previousCounts.map ProportionsCounts.generation =
      [0, 1, 2] ∧
    (ProportionsModel.reachState false BunnyCounts.withZero
        ProportionsModel.traceFour).previousCounts.map ProportionsCounts.generation =
      [0, 1, 2, 3] := by
  constructor
  · rfl
  · rfl

/-- C4 (amended): Bounded history retention — the history is a finite list that grows
by exactly one record per completed generation, keeping all earlier records (no
eviction; only `reset` clears it), and its length never exceeds the clock's current
generation number in any reachable state.  Boundedness of memory over a run comes from
the simulation ending at the memory/generation limit (it enters `COMPLETED` mode),
not from evicting old records. -/
theorem history_retention_amended :
    (∀ (isPlaying0 : Bool) (live0 : BunnyCounts) (ops : List ProportionsModel.Op),
        (ProportionsModel.reachState isPlaying0 live0 ops).previousCounts.length ≤
          (ProportionsModel.reachState isPlaying0 live0 ops).clockGeneration) ∧
    (∀ (s s' : ProportionsModelState) (g : Nat) (c : BunnyCounts),
        ProportionsModel.recordEndCounts g c s = Except.ok s' →
          s'.previousCounts.length = s.previousCounts.length + 1 ∧
          ∃ r, s'.previousCounts = s.previousCounts ++ [r]) := by
  constructor
  · intro isPlaying0 live0 ops
    exact ProportionsModel.lenInv_run ops (ProportionsModel.initState isPlaying0 live0)
      (by simp [ProportionsModel.LenInv, ProportionsModel.initState])
  · intro s s' g c h
    obtain ⟨h1, h2, sc, hsc, hs'⟩ := ProportionsModel.recordEndCounts_ok s s' g c h
    constructor
    · rw [hs']
      simp
    · exact ⟨⟨g, sc, c⟩, by rw [hs']⟩

/-- Witness for C4 (amended): evaluated on the concrete trace completing three
generations — the history length 3 does not exceed the clock generation 3, and the
concrete legal `recordEndCounts( 0, countsB )` grows the history from 0 to 1 records
by appending. -/
theorem history_retention_amended_witness :
    (ProportionsModel.reachState false BunnyCounts.withZero
        ProportionsModel.traceThree).previousCounts.length ≤
      (ProportionsModel.reachState false BunnyCounts.withZero
        ProportionsModel.traceThree).clockGeneration ∧
    ProportionsModel.stateAfterEnd.previousCounts.length =
      ProportionsModel.stateBeforeEnd.previousCounts.length + 1 := by
  constructor
  · exact history_retention_amended.1 false BunnyCounts.withZero ProportionsModel.traceThree
  · exact (history_retention_amended.2 ProportionsModel.stateBeforeEnd
      ProportionsModel.stateAfterEnd 0 ProportionsModel.countsB rfl).1

/-- C7: Reset clears the ledger — after any call to `ProportionsModel.reset()`,
whatever the prior state (hence however many resets came before), the history is
empty, the current start counts are `null` (so `hasDataProperty`, which is derived as
`!!currentStartCounts`, is `false`), the displayed start and end counts are the zero
counts, and the displayed generation is back to 0. -/
theorem reset_clears_ledger (s : ProportionsModelState) :
    (ProportionsModel.reset s).previousCounts = [] ∧
    (ProportionsModel.reset s).currentStartCounts = none ∧
    (ProportionsModel.reset s).startCounts = BunnyCounts.withZero ∧
    (ProportionsModel.reset s).endCounts = BunnyCounts.withZero ∧
    (ProportionsModel.reset s).proportionsGeneration = 0 :=
  ⟨ProportionsModel.reset_previousCounts s, ProportionsModel.reset_currentStartCounts s,
   ProportionsModel.reset_startCounts s, ProportionsModel.reset_endCounts s,
   ProportionsModel.reset_proportionsGeneration s⟩

/-- C9: Play/display-generation invariant — every operation preserves the invariant
that while `isPlayingProperty` is `true`, `proportionsGenerationProperty` equals the
clock's current generation; setting the displayed generation to any other (in-range)
value forces `isPlayingProperty` to `false` (pauses the sim); and resuming play snaps
the displayed generation back to the clock's current generation. -/
theorem play_display_generation_invariant :
    (∀ (isPlaying0 : Bool) (live0 : BunnyCounts) (ops : List ProportionsModel.Op),
        ProportionsModel.PlayInv (ProportionsModel.reachState isPlaying0 live0 ops)) ∧
    (∀ s : ProportionsModelState, ProportionsModel.PlayInv s →
        ∀ g, g ≤ s.clockGeneration → g ≠ s.clockGeneration →
          (ProportionsModel.setProportionsGeneration g s).isPlaying = false) ∧
    (∀ s : ProportionsModelState, ProportionsModel.PlayInv s →
        (ProportionsModel.setIsPlaying true s).proportionsGeneration =
          (ProportionsModel.setIsPlaying true s).clockGeneration) := by
  refine ⟨?_, ?_, ?_⟩
  · intro isPlaying0 live0 ops
    exact ProportionsModel.playInv_run ops (ProportionsModel.initState isPlaying0 live0)
      (by intro h; rfl)
  · intro s hinv g hle hne
    by_cases hgp : g = s.proportionsGeneration
    · have hnoop : ProportionsModel.setProportionsGeneration g s = s := by
        unfold ProportionsModel.setProportionsGeneration
        rw [if_neg (by simp [hgp])]
      rw [hnoop]
      cases hb : s.isPlaying with
      | false => rfl
      | true =>
          exact absurd (hinv hb) (by rw [← hgp]; exact hne)
    · unfold ProportionsModel.setProportionsGeneration
      rw [if_pos ⟨hle, hgp⟩, ProportionsModel.updateDisplay_isPlaying,
        if_neg (by exact hne)]
  · intro s hinv
    by_cases hb : true = s.isPlaying
    · have hnoop : ProportionsModel.setIsPlaying true s = s := by
        unfold ProportionsModel.setIsPlaying
        rw [if_pos hb]
      rw [hnoop]
      exact hinv hb.symm
    · unfold ProportionsModel.setIsPlaying
      rw [if_neg hb]
      simp only [if_true]
      rw [ProportionsModel.setValueAndRangeClock_proportionsGeneration,
        ProportionsModel.setValueAndRangeClock_clockGeneration]

/-- Witness for C9: on the concrete playing state at clock generation 3 (which
satisfies the invariant), scrolling the displayed generation to 1 pauses the sim, and
resuming play keeps the displayed generation at the clock generation. -/
theorem play_display_generation_invariant_witness :
    (ProportionsModel.setProportionsGeneration 1 ProportionsModel.statePlaying).isPlaying =
      false ∧
    (ProportionsModel.setIsPlaying true ProportionsModel.statePlaying).proportionsGeneration =
      (ProportionsModel.setIsPlaying true ProportionsModel.statePlaying).clockGeneration := by
  constructor
  · exact play_display_generation_invariant.2.1 ProportionsModel.statePlaying
      (fun _ => by decide) 1 (by decide) (by decide)
  · exact play_display_generation_invariant.2.2 ProportionsModel.statePlaying
      (fun _ => by decide)

/-- C6: Currently-displayed counts — after the display multilink runs on a state that
shows the current generation (`proportionsGeneration = clockGeneration`) with start
counts recorded, the displayed start counts are the stored current start counts, the
displayed end counts equal the live bunny counts (computed from the live population,
not from history), the live-counts listener is linked, and every subsequent change of
the live counts updates the displayed end counts; when the state shows a previous
generation `g` with a stored record for `g`, the displayed start and end counts are
exactly that record's. -/
theorem displayed_counts_correct (s : ProportionsModelState) (sc : BunnyCounts) :
    (s.currentStartCounts = some sc → s.proportionsGeneration = s.clockGeneration →
        (ProportionsModel.updateDisplay s).startCounts = sc ∧
        (ProportionsModel.updateDisplay s).endCounts = s.liveBunnyCounts ∧
        (ProportionsModel.updateDisplay s).liveCountsLinked = true ∧
        ∀ c, (ProportionsModel.setLiveCounts c (ProportionsModel.updateDisplay s)).endCounts = c) ∧
    (∀ rec : ProportionsCounts, s.currentStartCounts = some sc →
        s.proportionsGeneration ≠ s.clockGeneration →
        s.previousCounts.get? s.proportionsGeneration = some rec →
        (ProportionsModel.updateDisplay s).startCounts = rec.startCounts ∧
        (ProportionsModel.updateDisplay s).endCounts = rec.endCounts) := by
  constructor
  · intro hsc hg
    have hud : ProportionsModel.updateDisplay s =
        { s with startCounts := sc, endCounts := s.liveBunnyCounts,
                 liveCountsLinked := true } := by
      simp [ProportionsModel.updateDisplay, hsc, hg]
    rw [hud]
    refine ⟨rfl, rfl, rfl, ?_⟩
    intro c
    simp [ProportionsModel.setLiveCounts]
  · intro rec hsc hg hrec
    have hud : ProportionsModel.updateDisplay s =
        { s with startCounts := rec.startCounts, endCounts := rec.endCounts,
                 liveCountsLinked := false } := by
      rw [List.get?_eq_getElem?] at hrec
      simp [ProportionsModel.updateDisplay, hsc, hg, hrec]
    rw [hud]
    exact ⟨rfl, rfl⟩

/-- Witness for C6: on the concrete state right after `recordStartCounts( 0, countsA )`
on a fresh model (displaying the current generation 0), the displayed end counts track
the live counts, including after a live-counts change to `countsC`; and on the concrete
state displaying previous generation 1 at clock generation 3, the displayed counts are
exactly stored record 1 (start `countsB`, end `countsC`). -/
theorem displayed_counts_correct_witness :
    ((ProportionsModel.updateDisplay ProportionsModel.stateAfterFirstStart).endCounts =
        ProportionsModel.stateAfterFirstStart.liveBunnyCounts ∧
      (ProportionsModel.setLiveCounts ProportionsModel.countsC
        (ProportionsModel.updateDisplay ProportionsModel.stateAfterFirstStart)).endCounts =
        ProportionsModel.countsC) ∧
    ((ProportionsModel.updateDisplay ProportionsModel.stateViewingPrevious).startCounts =
        ProportionsModel.countsB ∧
      (ProportionsModel.updateDisplay ProportionsModel.stateViewingPrevious).endCounts =
        ProportionsModel.countsC) := by
  constructor
  · have h := (displayed_counts_correct ProportionsModel.stateAfterFirstStart
      ProportionsModel.countsA).1 (by decide) (by decide)
    exact ⟨h.2.1, h.2.2.2 ProportionsModel.countsC⟩
  · have h := (displayed_counts_correct ProportionsModel.stateViewingPrevious
      ProportionsModel.countsB).2 ⟨1, ProportionsModel.countsB, ProportionsModel.countsC⟩
      (by decide) (by decide) (by decide)
    exact h

namespace NaturalSelectionScreenView

/-- The property maintained by the `simulationModeProperty.link` callback: each of the
four governed controls is enabled exactly when the mode is not `COMPLETED`. -/
def ViewLinkInv (s : ViewState) : Prop :=
  s.addMutationsPanelEnabled = decide (s.simulationMode ≠ SimulationMode.completed) ∧
  s.environmentalFactorsPanelEnabled = decide (s.simulationMode ≠ SimulationMode.completed) ∧
  s.timeControlEnabled = decide (s.simulationMode ≠ SimulationMode.completed) ∧
  s.environmentRadioButtonGroupEnabled = decide (s.simulationMode ≠ SimulationMode.completed)

theorem viewLinkInv_setSimulationMode (mode : SimulationMode) (s : ViewState) :
    ViewLinkInv (setSimulationMode mode s) := by
  refine ⟨rfl, rfl, rfl, rfl⟩

theorem viewLinkInv_applyViewOp (s : ViewState) (op : ViewOp) :
    ViewLinkInv (applyViewOp s op) := by
  cases op with
  | terminal e => exact viewLinkInv_setSimulationMode SimulationMode.completed s
  | setMode mode => exact viewLinkInv_setSimulationMode mode s

theorem viewLinkInv_run (ops : List ViewOp) :
    ∀ s : ViewState, ViewLinkInv s → ViewLinkInv (runViewOps s ops) := by
  induction ops with
  | nil => intro s h; exact h
  | cons op rest ih => intro s h; exact ih (applyViewOp s op) (viewLinkInv_applyViewOp s op)

end NaturalSelectionScreenView

/-- C5: Terminal transition — whenever any of the three terminal events fires (all
bunnies have died, bunnies have taken over the world, the memory/generation limit is
reached), the listener runs `endSimulation`, so the simulation mode becomes
`COMPLETED` and the Add Mutations panel, the Environmental Factors panel, the time
control and the environment radio button group are all disabled; and in every state
reachable through the mode property's link each of those controls is enabled exactly
when the mode is not `COMPLETED` — so they stay disabled while `COMPLETED`, until a
reset assigns `STAGED` again (no stepping can be started while the time control is
disabled). -/
theorem terminal_transition_completes :
    (∀ (s : NaturalSelectionScreenView.ViewState)
        (e : NaturalSelectionScreenView.TerminalEvent),
        (NaturalSelectionScreenView.handleTerminalEvent e s).simulationMode =
          SimulationMode.completed ∧
        (NaturalSelectionScreenView.handleTerminalEvent e s).addMutationsPanelEnabled = false ∧
        (NaturalSelectionScreenView.handleTerminalEvent e s).environmentalFactorsPanelEnabled = false ∧
        (NaturalSelectionScreenView.handleTerminalEvent e s).timeControlEnabled = false ∧
        (NaturalSelectionScreenView.handleTerminalEvent e s).environmentRadioButtonGroupEnabled = false) ∧
    (∀ ops : List NaturalSelectionScreenView.ViewOp,
        NaturalSelectionScreenView.ViewLinkInv
          (NaturalSelectionScreenView.runViewOps
            NaturalSelectionScreenView.initViewState ops)) := by
  constructor
  · intro s e
    exact ⟨rfl, rfl, rfl, rfl, rfl⟩
  · intro ops
    exact NaturalSelectionScreenView.viewLinkInv_run ops
      NaturalSelectionScreenView.initViewState
      (NaturalSelectionScreenView.viewLinkInv_setSimulationMode SimulationMode.staged _)

/-- C8: View-model ground round-trip — for every view point with
`0 ≤ xView ≤ viewSize.width` and `yHorizonView ≤ yView ≤ viewSize.height`, projecting
the ground position returned by `viewToModelGroundPosition( xView, yView )` back to
the view with `modelToViewX` and `modelToViewY` yields exactly `(xView, yView)`, in
exact rational arithmetic. -/
theorem ground_round_trip (xView yView : ℚ)
    (hx0 : 0 ≤ xView) (hx1 : xView ≤ EnvironmentModelViewTransform.viewSizeWidth)
    (hy0 : EnvironmentModelViewTransform.yHorizonView ≤ yView)
    (hy1 : yView ≤ EnvironmentModelViewTransform.viewSizeHeight) :
    EnvironmentModelViewTransform.modelToViewX
        (EnvironmentModelViewTransform.viewToModelGroundPosition xView yView) = xView ∧
    EnvironmentModelViewTransform.modelToViewY
        (EnvironmentModelViewTransform.viewToModelGroundPosition xView yView) = yView := by
  have hy0' : (95 : ℚ) ≤ yView := hy0
  have hD : (300 : ℚ) * (95 - yView) + 150 * (yView - 310) ≠ 0 := by
    intro h
    nlinarith
  have hz : EnvironmentModelViewTransform.viewToModelZ yView ≠ 0 := by
    unfold EnvironmentModelViewTransform.viewToModelZ
      EnvironmentModelViewTransform.zNearModel EnvironmentModelViewTransform.zFarModel
      EnvironmentModelViewTransform.yHorizonView EnvironmentModelViewTransform.viewSizeHeight
    exact div_ne_zero (by norm_num) hD
  constructor
  · simp only [EnvironmentModelViewTransform.modelToViewX,
      EnvironmentModelViewTransform.viewToModelGroundPosition,
      EnvironmentModelViewTransform.viewToModelX,
      EnvironmentModelViewTransform.viewToModelZ,
      EnvironmentModelViewTransform.xyScaleFactor,
      EnvironmentModelViewTransform.zNearModel, EnvironmentModelViewTransform.zFarModel,
      EnvironmentModelViewTransform.yHorizonView, EnvironmentModelViewTransform.viewSizeHeight,
      EnvironmentModelViewTransform.viewSizeWidth, EnvironmentModelViewTransform.riseModel] at hz ⊢
    field_simp at hz ⊢
    ring
  · simp only [EnvironmentModelViewTransform.modelToViewY,
      EnvironmentModelViewTransform.viewToModelGroundPosition,
      EnvironmentModelViewTransform.getGroundY,
      EnvironmentModelViewTransform.viewToModelZ,
      EnvironmentModelViewTransform.xyScaleFactor,
      EnvironmentModelViewTransform.zNearModel, EnvironmentModelViewTransform.zFarModel,
      EnvironmentModelViewTransform.yHorizonView, EnvironmentModelViewTransform.viewSizeHeight,
      EnvironmentModelViewTransform.viewSizeWidth, EnvironmentModelViewTransform.riseModel] at hz ⊢
    field_simp at hz ⊢
    ring

/-- Witness for C8: the round trip evaluated at the concrete view point (10, 100). -/
theorem ground_round_trip_witness :
    EnvironmentModelViewTransform.modelToViewX
        (EnvironmentModelViewTransform.viewToModelGroundPosition 10 100) = 10 ∧
    EnvironmentModelViewTransform.modelToViewY
        (EnvironmentModelViewTransform.viewToModelGroundPosition 10 100) = 100 :=
  ground_round_trip 10 100 (by norm_num)
    (by norm_num [EnvironmentModelViewTransform.viewSizeWidth])
    (by norm_num [EnvironmentModelViewTransform.yHorizonView])
    (by norm_num [EnvironmentModelViewTransform.viewSizeHeight])

/-- C10: Scroller range preservation and clamping — both the `back` and the `forward`
callback of `PopulationGenerationScroller` replace the range with a new `Range` whose
length (`max - min`) equals the range length captured at construction, and the
`forward` callback never sets the range's max above `maxProperty.value`. -/
theorem scroller_range_preserved (stepAmount maxValue : ℚ) (r0 r : NsRange) :
    ((PopulationGenerationScroller.back stepAmount r0.getLength r).2.getLength =
      r0.getLength) ∧
    ((PopulationGenerationScroller.forward stepAmount r0.getLength maxValue r).getLength =
      r0.getLength) ∧
    ((PopulationGenerationScroller.forward stepAmount r0.getLength maxValue r).max ≤
      maxValue) := by
  refine ⟨?_, ?_, ?_⟩
  · simp [PopulationGenerationScroller.back, NsRange.getLength]
  · simp [PopulationGenerationScroller.forward, NsRange.getLength]
  · simp [PopulationGenerationScroller.forward]
